import Mathlib

/-!
Shallow embedding of the ovn-heater test harness core
(`ovn-tester/ovn_utils.py`, `ovn-tester/ovn_workload.py`,
`ovn-tester/ovn_tester.py`) and proofs about it.

Addresses are modelled as unbounded integers (`netaddr` address
arithmetic on `.first` / `.last` is plain integer arithmetic); strings
keep their Python contents.  Fallible code returns `Except`.
-/

namespace OvnHeater

/-- Error taxonomy used by the embedded fragments: configuration errors
raised by `DualStackSubnet`, the `UUIDTransactionError` of the retry
loops, and ovsdbapp's `TimeoutException` raised by `do_post_commit`. -/
inductive OvnError where
  | invalidConfig
  | uuidUnknown
  | timeout
deriving Repr, DecidableEq

/-- Model of a `netaddr.IPNetwork`: `ip` is the address the network was
written with (equal to the network base address for the configured
networks), `first`/`last` are the lowest/highest addresses, `prefixlen`
its prefix length. -/
structure IPNetwork where
  ip : Int
  first : Int
  last : Int
  prefixlen : Nat
deriving Repr, DecidableEq

/-- `ovn_utils.DualStackIP` namedtuple. -/
structure DualStackIP where
  ip4 : Option Int
  plen4 : Option Nat
  ip6 : Option Int
  plen6 : Option Nat
deriving Repr, DecidableEq

/-- `ovn_utils.DualStackSubnet`: at least one family is expected to be
present; absence is `none`. -/
structure DualStackSubnet where
  n4 : Option IPNetwork
  n6 : Option IPNetwork
deriving Repr, DecidableEq

/-- `DualStackSubnet.forward` (ovn_utils.py lines 115-137): the `index`-th
host counted from the low end, per address family; raises
`OvnInvalidConfigException` when neither family is present. -/
def DualStackSubnet.forward (s : DualStackSubnet) (index : Int) :
    Except OvnError DualStackIP :=
  match s.n4, s.n6 with
  | some n4, some n6 =>
      .ok ⟨some (n4.first + index), some n4.prefixlen,
           some (n6.first + index), some n6.prefixlen⟩
  | some n4, none =>
      .ok ⟨some (n4.first + index), some n4.prefixlen, none, none⟩
  | none, some n6 =>
      .ok ⟨none, none, some (n6.first + index), some n6.prefixlen⟩
  | none, none => .error .invalidConfig

/-- `DualStackSubnet.reverse` (ovn_utils.py lines 139-161): the `index`-th
host counted from the high end, per address family; raises
`OvnInvalidConfigException` when neither family is present. -/
def DualStackSubnet.reverse (s : DualStackSubnet) (index : Int) :
    Except OvnError DualStackIP :=
  match s.n4, s.n6 with
  | some n4, some n6 =>
      .ok ⟨some (n4.last - index), some n4.prefixlen,
           some (n6.last - index), some n6.prefixlen⟩
  | some n4, none =>
      .ok ⟨some (n4.last - index), some n4.prefixlen, none, none⟩
  | none, some n6 =>
      .ok ⟨none, none, some (n6.last - index), some n6.prefixlen⟩
  | none, none => .error .invalidConfig

/-! ### UUID-retry discipline (ovn_utils.py `OvnNbctl`) -/

/-- `ovn_utils.MAX_RETRY`. -/
def MAX_RETRY : Nat := 5

/-- Loop body of `OvnNbctl.uuid_transaction` (ovn_utils.py lines 367-381).
`func b i` is the row UUID carried by `cmd.result` after executing
`func(may_exist=b)` on attempt `i` (`none` models the `AttributeError`
case where the result has no UUID).  Returns the outcome together with
the number of create attempts issued. -/
def uuidTransactionGo (func : Bool → Nat → Option Nat) :
    Nat → Nat → Except OvnError Nat × Nat
  | 0, _ => (.error .uuidUnknown, 0)
  | fuel + 1, i =>
    match func true i with
    | some u => (.ok u, 1)
    | none =>
      let r := uuidTransactionGo func fuel (i + 1)
      (r.1, r.2 + 1)

/-- `OvnNbctl.uuid_transaction`: retry the idempotent create
(`may_exist=True`) up to `MAX_RETRY` times; if no attempt yields a UUID,
raise `UUIDTransactionError`. -/
def uuid_transaction (func : Bool → Nat → Option Nat) :
    Except OvnError Nat × Nat :=
  uuidTransactionGo func MAX_RETRY 0

/-- Loop body of `OvnNbctl.db_create_transaction` (ovn_utils.py lines
383-400).  `create i` is the UUID carried by the `db_create` result on
attempt `i`, `lookup i` the UUID yielded by the natural-key lookup
`get_func()` performed on attempt `i` when the create result had no
UUID.  Returns the outcome together with the number of create attempts
issued. -/
def dbCreateTransactionGo (create lookup : Nat → Option Nat) :
    Nat → Nat → Except OvnError Nat × Nat
  | 0, _ => (.error .uuidUnknown, 0)
  | fuel + 1, i =>
    match create i with
    | some u => (.ok u, 1)
    | none =>
      match lookup i with
      | some u => (.ok u, 1)
      | none =>
        let r := dbCreateTransactionGo create lookup fuel (i + 1)
        (r.1, r.2 + 1)

/-- `OvnNbctl.db_create_transaction`: retry the raw row create up to
`MAX_RETRY` times, falling back to the `get_func` natural-key lookup
whenever the create result carries no UUID; if none yields a UUID,
raise `UUIDTransactionError`. -/
def db_create_transaction (create lookup : Nat → Option Nat) :
    Except OvnError Nat × Nat :=
  dbCreateTransactionGo create lookup MAX_RETRY 0

/-! ### NB transaction sync barrier (ovn_utils.py `NBTransaction`) -/

/-- The recognized wait types of an `NBTransaction`. -/
inductive WaitType where
  | sb
  | hv
deriving Repr, DecidableEq

/-- Contents of the singleton `NB_Global` row observed by a poll. -/
structure NBGlobal where
  sb_cfg : Nat
  hv_cfg : Nat
deriving Repr, DecidableEq

/-- Result of `NBTransaction.__init__` (ovn_utils.py lines 253-278):
the normalized `wait_type` field, plus whether the constructor logged
the "Unrecognized wait type" warning. -/
structure NBTransactionState where
  wait_type : Option WaitType
  warned : Bool
deriving Repr, DecidableEq

/-- Python `str.lower` on one character, for the ASCII range relevant
to wait types. -/
def pyCharLower (c : Char) : Char :=
  if 65 ≤ c.toNat ∧ c.toNat ≤ 90 then Char.ofNat (c.toNat + 32) else c

/-- Python `str.lower` applied to the wait type (ASCII lowercasing). -/
def pyLower (s : String) : String := ⟨s.data.map pyCharLower⟩

/-- `NBTransaction.__init__`: `self.wait_type = wait_type.lower() if
wait_type else None`; anything other than `"sb"`/`"hv"` is warned about
and replaced by `None`.  Note the Python truthiness test: the empty
string is falsy and becomes `None` without a warning. -/
def nbtransaction_init (wait_type : Option String) : NBTransactionState :=
  match wait_type with
  | none => ⟨none, false⟩
  | some s =>
    if s = "" then ⟨none, false⟩
    else
      let l := pyLower s
      if l = "sb" then ⟨some .sb, false⟩
      else if l = "hv" then ⟨some .hv, false⟩
      else ⟨none, true⟩

/-- `NBTransaction.pre_commit` (ovn_utils.py lines 280-282): increment
`NB_Global.nb_cfg` exactly when a wait type is set.  Returns the new
`nb_cfg` value. -/
def pre_commit (wait_type : Option WaitType) (nb_cfg : Nat) : Nat :=
  match wait_type with
  | some _ => nb_cfg + 1
  | none => nb_cfg

/-- `NBTransaction.nb_has_completed` (ovn_utils.py lines 312-320). -/
def nb_has_completed (wait_type : Option WaitType) (nb : NBGlobal)
    (next_cfg : Nat) : Bool :=
  match wait_type with
  | none => true
  | some .sb => decide (next_cfg ≤ nb.sb_cfg)
  | some .hv => decide (next_cfg ≤ min nb.sb_cfg nb.hv_cfg)

/-- Poll loop of `NBTransaction.do_post_commit` (ovn_utils.py lines
296-310).  `states i` is the `NB_Global` row as mirrored after the
`i`-th `self.api.idl.run()`; `fuel` is the number of loop iterations
the transaction deadline still allows (`timeout_exceeded` becomes true
when it is exhausted).  Returns the index of the poll at which the
barrier completed, or the `TimeoutException`. -/
def doPostCommitGo (wait_type : Option WaitType) (next_cfg : Nat)
    (states : Nat → NBGlobal) : Nat → Nat → Except OvnError Nat
  | 0, _ => .error .timeout
  | fuel + 1, i =>
    if nb_has_completed wait_type (states i) next_cfg then .ok i
    else doPostCommitGo wait_type next_cfg states fuel (i + 1)

/-- `NBTransaction.do_post_commit` (ovn_utils.py lines 291-310): return
immediately when no wait type is set (`.ok none`, no poll at all);
otherwise poll until `nb_has_completed` or the deadline, in which case
the `TimeoutException` is raised.  `.ok (some i)` means the barrier
completed at poll `i`. -/
def do_post_commit (wait_type : Option WaitType) (next_cfg : Nat)
    (states : Nat → NBGlobal) (deadline : Nat) :
    Except OvnError (Option Nat) :=
  match wait_type with
  | none => .ok none
  | some w => (doPostCommitGo (some w) next_cfg states deadline 0).map some

/-- Observable outcome of `NBTransaction.post_commit`: the exception
surfaced to the caller (if any), whether the timeout was merely logged,
and whether the NB write of the transaction remains committed
(`post_commit` runs only after the commit succeeded and never rolls it
back). -/
structure PostCommitResult where
  raised : Option OvnError
  logged_timeout : Bool
  committed : Bool
deriving Repr, DecidableEq

/-- `NBTransaction.post_commit` (ovn_utils.py lines 284-289): run
`do_post_commit` and catch its `TimeoutException`, logging it instead
of re-raising. -/
def post_commit (wait_type : Option WaitType) (next_cfg : Nat)
    (states : Nat → NBGlobal) (deadline : Nat) : PostCommitResult :=
  match do_post_commit wait_type next_cfg states deadline with
  | .ok _ => ⟨none, false, true⟩
  | .error _ => ⟨none, true, true⟩

/-- `OvnNbctl.sync` (ovn_utils.py lines 664-668): an empty transaction
with the given wait type; its commit increments `nb_cfg` (when the wait
type is recognized) and then runs the post-commit barrier.  `nb_cfg` is
the counter value before the transaction. -/
def sync_outcome (wait : String) (nb_cfg : Nat) (states : Nat → NBGlobal)
    (deadline : Nat) : PostCommitResult :=
  let t := nbtransaction_init (some wait)
  post_commit t.wait_type (pre_commit t.wait_type nb_cfg) states deadline

/-! ### Default node remotes (ovn_tester.py) -/

/-- The `k`-th address (0-based) yielded by `net.iter_hosts()` for an
IPv4 `netaddr.IPNetwork` whose `ip` is the network base address and
whose prefix length is below 31: iteration starts at the first host
`ip + 1`. -/
def iter_host (net_ip : Int) (k : Nat) : Int := net_ip + 1 + k

/-- One `{ssl|tcp}:{ip}:6642` endpoint of the default node remote. -/
structure Remote where
  proto : String
  addr : Int
  port : Nat
deriving Repr, DecidableEq

/-- `ovn_tester.calculate_default_node_remotes` (ovn_tester.py lines
80-93): when `n_relays > 0` the host generator first skips 3 (clustered)
or 1 (single) addresses and then `n_relays` endpoints are taken; with no
relays, 3 (clustered) or 1 (single) endpoints are taken with no skip.
The comma-joining of the string forms is kept abstract: the list order
is the joining order. -/
def calculate_default_node_remotes (net_ip : Int) (clustered : Bool)
    (n_relays : Nat) (enable_ssl : Bool) : List Remote :=
  let skip : Nat := if 0 < n_relays then (if clustered then 3 else 1) else 0
  let count : Nat := if 0 < n_relays then n_relays
    else (if clustered then 3 else 1)
  let proto : String := if enable_ssl then "ssl" else "tcp"
  (List.range count).map (fun k => ⟨proto, iter_host net_ip (skip + k), 6642⟩)

/-! ### Batched port-group / address-set additions (ovn_utils.py) -/

/-- `ovn_utils.OvnNbctl.port_group_add_ports` batch size. -/
def MAX_PORTS_IN_BATCH : Nat := 500

/-- `ovn_utils.OvnNbctl.address_set_add_addrs` batch size. -/
def MAX_ADDRS_IN_BATCH : Nat := 500

/-- The consecutive slices `l[i : i + bs]` for `i in range(0, len(l),
bs)`, written with structural fuel (`fuel ≥ l.length` suffices). -/
def chunksGo (bs : Nat) : Nat → List α → List (List α)
  | _, [] => []
  | 0, _ :: _ => []
  | fuel + 1, a :: l => (a :: l).take bs :: chunksGo bs fuel ((a :: l).drop bs)

/-- The batches a Python loop `for i in range(0, len(l), bs)` slices
`l` into. -/
def chunks (bs : Nat) (l : List α) : List (List α) :=
  chunksGo bs l.length l

/-- `OvnNbctl.port_group_add_ports` (ovn_utils.py lines 529-534): add
the ports to the group's membership in batches of
`MAX_PORTS_IN_BATCH`, one `pg_add_ports` transaction per batch.  The
group membership is modelled as the list of member ports. -/
def port_group_add_ports (pg : List α) (lports : List α) : List α :=
  (chunks MAX_PORTS_IN_BATCH lports).foldl (fun acc sl => acc ++ sl) pg

/-- `OvnNbctl.address_set_add_addrs` (ovn_utils.py lines 546-552): add
the addresses to the set in batches of `MAX_ADDRS_IN_BATCH`, one
`address_set_add_addresses` transaction per batch. -/
def address_set_add_addrs (aset : List String) (addrs : List String) :
    List String :=
  (chunks MAX_ADDRS_IN_BATCH addrs).foldl (fun acc sl => acc ++ sl) aset

/-! ### Worker port provisioning (ovn_workload.py `WorkerNode`) -/

/-- The fields of an `LSPort` determined by
`WorkerNode.provision_port`. -/
structure LSPortM where
  name : String
  ip : Int
  plen : Nat
  gw : Int
  ext_gw : Int
deriving Repr, DecidableEq

/-- The `WorkerNode` state touched by `provision_port`. -/
structure WorkerNodeState where
  id : Nat
  int_net : IPNetwork
  ext_net : IPNetwork
  lports : List LSPortM
  next_lport_index : Nat
deriving Repr, DecidableEq

/-- `WorkerNode.provision_port` (ovn_workload.py lines 265-281): name
`lp-{id}-{next_lport_index}`, IP `int_net.first + next_lport_index +
1`, gateway `int_net.last - 1`, external gateway `ext_net.last - 2`;
the port is appended to `lports` and `next_lport_index` is
incremented. -/
def WorkerNodeState.provision_port (w : WorkerNodeState) :
    WorkerNodeState × LSPortM :=
  let name := "lp-" ++ toString w.id ++ "-" ++ toString w.next_lport_index
  let ip : Int := w.int_net.first + w.next_lport_index + 1
  let plen : Nat := w.int_net.prefixlen
  let gw : Int := w.int_net.last - 1
  let ext_gw : Int := w.ext_net.last - 2
  let lport : LSPortM := ⟨name, ip, plen, gw, ext_gw⟩
  ({ w with lports := w.lports ++ [lport],
            next_lport_index := w.next_lport_index + 1 }, lport)

/-- `WorkerNode.provision_ports` (ovn_workload.py lines 325-330): `n`
successive `provision_port` calls, collecting the ports in order. -/
def WorkerNodeState.provision_ports (w : WorkerNodeState) :
    Nat → WorkerNodeState × List LSPortM
  | 0 => (w, [])
  | n + 1 =>
    let wp := w.provision_port
    let rest := wp.1.provision_ports n
    (rest.1, wp.2 :: rest.2)

/-- Modelled from the spec: the port the spec says the `k`-th
provisioning on worker `id` must produce — name `lp-{id}-{k}`, IP
`int_net.first + k + 1`, default gateway `int_net.last - 1`, external
gateway `ext_net.last - 2`. -/
def spec_port (id : Nat) (int_net ext_net : IPNetwork) (k : Nat) : LSPortM :=
  ⟨"lp-" ++ toString id ++ "-" ++ toString k,
   int_net.first + k + 1, int_net.prefixlen,
   int_net.last - 1, ext_net.last - 2⟩

/-! ### Namespace policy model (ovn_workload.py `Namespace`) -/

/-- The `Namespace` state touched by `add_ports` and `enforce`; the
address set and the three port groups are modelled by their
contents. -/
structure NamespaceState where
  ports : List LSPortM
  enforcing : Bool
  addr_set : List String
  pg_def_deny_igr : List LSPortM
  pg_def_deny_egr : List LSPortM
  pg : List LSPortM
deriving Repr, DecidableEq

/-- `Namespace.add_ports` (ovn_workload.py lines 399-410): extend
`ports`, always add the port IPs to the address set, and add the ports
to the three port groups only when `enforcing`. -/
def NamespaceState.add_ports (ns : NamespaceState) (ps : List LSPortM) :
    NamespaceState :=
  let ns1 := { ns with
    ports := ns.ports ++ ps,
    addr_set := address_set_add_addrs ns.addr_set
      (ps.map (fun (p : LSPortM) => toString p.ip)) }
  if ns1.enforcing then
    { ns1 with
      pg_def_deny_igr := port_group_add_ports ns1.pg_def_deny_igr ps,
      pg_def_deny_egr := port_group_add_ports ns1.pg_def_deny_egr ps,
      pg := port_group_add_ports ns1.pg ps }
  else ns1

/-- `Namespace.enforce` (ovn_workload.py lines 434-440): a no-op when
already enforcing; otherwise set `enforcing` and move all current
ports into the three port groups. -/
def NamespaceState.enforce (ns : NamespaceState) : NamespaceState :=
  if ns.enforcing then ns
  else
    { ns with
      enforcing := true,
      pg_def_deny_igr := port_group_add_ports ns.pg_def_deny_igr ns.ports,
      pg_def_deny_egr := port_group_add_ports ns.pg_def_deny_egr ns.ports,
      pg := port_group_add_ports ns.pg ns.ports }

/-! ### Trim-on-compaction commands (ovn_workload.py `CentralNode`) -/

/-- The command `CentralNode.enable_trim_on_compaction` runs for a DB
container against the NB database (ovn_workload.py lines 100-103):
adjacent f-string fragments `'docker exec {c} ovs-appctl '`,
`'-t /run/ovn/ovnnb_db.ctl '`, ... concatenate. -/
def db_trim_cmd_nb (db_container : String) : String :=
  "docker exec " ++ db_container ++ " ovs-appctl " ++
    "-t /run/ovn/ovnnb_db.ctl " ++
    "ovsdb-server/memory-trim-on-compaction " ++ "on"

/-- The command `CentralNode.enable_trim_on_compaction` runs for a
relay container (ovn_workload.py lines 109-113): the first f-string
fragment is `'docker exec {relay_container}'` with no trailing space,
so it concatenates directly with `'ovs-appctl -t '`. -/
def relay_trim_cmd (relay_container : String) : String :=
  "docker exec " ++ relay_container ++ "ovs-appctl -t " ++
    "/run/ovn/ovnsb_db.ctl " ++
    "ovsdb-server/memory-trim-on-compaction " ++ "on"

/-- Modelled from the spec: the correctly-spaced relay command the spec
requires, with whitespace between the `docker exec {relay_container}`
part and the `ovs-appctl` invocation. -/
def spec_relay_trim_cmd (relay_container : String) : String :=
  "docker exec " ++ relay_container ++ " ovs-appctl -t " ++
    "/run/ovn/ovnsb_db.ctl " ++
    "ovsdb-server/memory-trim-on-compaction " ++ "on"

/-! ## Helper lemmas -/

theorem chunksGo_join {α : Type} (bs : Nat) (hbs : 0 < bs) :
    ∀ (fuel : Nat) (l : List α), l.length ≤ fuel →
      (chunksGo bs fuel l).flatten = l := by
  intro fuel
  induction fuel with
  | zero =>
    intro l hl
    match l with
    | [] => rfl
    | a :: l => simp at hl
  | succ n ih =>
    intro l hl
    match l with
    | [] => rfl
    | a :: l =>
      simp only [chunksGo, List.flatten_cons]
      rw [ih]
      · exact List.take_append_drop bs (a :: l)
      · simp only [List.length_drop, List.length_cons]
        simp only [List.length_cons] at hl
        omega

theorem chunksGo_mem_length {α : Type} (bs : Nat) :
    ∀ (fuel : Nat) (l : List α) (b : List α),
      b ∈ chunksGo bs fuel l → b.length ≤ bs := by
  intro fuel
  induction fuel with
  | zero =>
    intro l b hb
    match l with
    | [] => simp [chunksGo] at hb
    | a :: l => simp [chunksGo] at hb
  | succ n ih =>
    intro l b hb
    match l with
    | [] => simp [chunksGo] at hb
    | a :: l =>
      simp only [chunksGo, List.mem_cons] at hb
      rcases hb with hb | hb
      · subst hb
        exact (List.length_take bs (a :: l)) ▸ min_le_left _ _
      · exact ih _ _ hb

theorem chunks_join {α : Type} (bs : Nat) (hbs : 0 < bs) (l : List α) :
    (chunks bs l).flatten = l :=
  chunksGo_join bs hbs l.length l le_rfl

theorem chunks_mem_length {α : Type} (bs : Nat) (l b : List α)
    (hb : b ∈ chunks bs l) : b.length ≤ bs :=
  chunksGo_mem_length bs l.length l b hb

theorem foldl_append_eq {α : Type} (bs : List (List α)) :
    ∀ init : List α,
      bs.foldl (fun acc sl => acc ++ sl) init = init ++ bs.flatten := by
  induction bs with
  | nil => intro init; simp
  | cons b t ih =>
    intro init
    simp only [List.foldl_cons, List.flatten_cons, ih (init ++ b),
      List.append_assoc]

theorem port_group_add_ports_eq {α : Type} (pg lports : List α) :
    port_group_add_ports pg lports = pg ++ lports := by
  unfold port_group_add_ports
  rw [foldl_append_eq, chunks_join MAX_PORTS_IN_BATCH (by decide)]

theorem address_set_add_addrs_eq (aset addrs : List String) :
    address_set_add_addrs aset addrs = aset ++ addrs := by
  unfold address_set_add_addrs
  rw [foldl_append_eq, chunks_join MAX_ADDRS_IN_BATCH (by decide)]

theorem provision_ports_spec :
    ∀ (n : Nat) (w : WorkerNodeState),
      (w.provision_ports n).2 =
        (List.range n).map
          (fun k => spec_port w.id w.int_net w.ext_net
            (w.next_lport_index + k)) := by
  intro n
  induction n with
  | zero => intro w; rfl
  | succ m ih =>
    intro w
    have step : (w.provision_ports (m + 1)).2 =
        spec_port w.id w.int_net w.ext_net w.next_lport_index ::
          (w.provision_port.1.provision_ports m).2 := rfl
    rw [step, ih w.provision_port.1]
    have hfields : w.provision_port.1.id = w.id ∧
        w.provision_port.1.int_net = w.int_net ∧
        w.provision_port.1.ext_net = w.ext_net ∧
        w.provision_port.1.next_lport_index = w.next_lport_index + 1 :=
      ⟨rfl, rfl, rfl, rfl⟩
    rw [hfields.1, hfields.2.1, hfields.2.2.1, hfields.2.2.2]
    rw [List.range_succ_eq_map, List.map_cons, List.map_map]
    have harg : (fun k => spec_port w.id w.int_net w.ext_net
          (w.next_lport_index + 1 + k)) =
        ((fun k => spec_port w.id w.int_net w.ext_net
          (w.next_lport_index + k)) ∘ Nat.succ) := by
      funext k
      simp only [Function.comp]
      congr 1
      omega
    rw [harg]
    congr 1

/-! ## Claim theorems -/

/-- C5: a bulk port-group membership add (and an address-set add) is
split into consecutive batches of at most 500 elements, and the batches
together add exactly the input elements: their concatenation is the
input list, so the resulting membership equals the one obtained by
adding all elements individually, with no element dropped or
duplicated. -/
theorem batched_adds_preserve_elements {α : Type} [DecidableEq α]
    (pg lports : List α) (aset addrs : List String) :
    port_group_add_ports pg lports = pg ++ lports
    ∧ address_set_add_addrs aset addrs = aset ++ addrs
    ∧ (chunks MAX_PORTS_IN_BATCH lports).flatten = lports
    ∧ (∀ b ∈ chunks MAX_PORTS_IN_BATCH lports, b.length ≤ 500)
    ∧ (∀ x : α, ((chunks MAX_PORTS_IN_BATCH lports).flatten.count x) =
        lports.count x) := by
  refine ⟨port_group_add_ports_eq pg lports,
    address_set_add_addrs_eq aset addrs,
    chunks_join MAX_PORTS_IN_BATCH (by decide) lports,
    fun b hb => chunks_mem_length MAX_PORTS_IN_BATCH lports b hb,
    fun x => ?_⟩
  rw [chunks_join MAX_PORTS_IN_BATCH (by decide) lports]

/-- Witness for C5 at a concrete input. -/
theorem batched_adds_preserve_elements_witness :
    port_group_add_ports [0] [1, 2] = [0, 1, 2]
    ∧ ([1, 2] : List Nat).length ≤ 500 :=
  ⟨(batched_adds_preserve_elements [0] [1, 2] [] []).1,
   (batched_adds_preserve_elements ([0] : List Nat) [1, 2] [] []).2.2.2.1
     [1, 2] (by decide)⟩

/-- C6: starting from a fresh worker (next_lport_index 0), the k-th
provisioned port is named lp-{id}-{k}, has IP int_net.first + k + 1,
default gateway int_net.last - 1 and external gateway
ext_net.last - 2. -/
theorem worker_kth_port (w : WorkerNodeState) (n : Nat)
    (h : w.next_lport_index = 0) :
    (w.provision_ports n).2 =
      (List.range n).map (fun (k : Nat) =>
        (⟨"lp-" ++ toString w.id ++ "-" ++ toString k,
          w.int_net.first + (k : Int) + 1, w.int_net.prefixlen,
          w.int_net.last - 1, w.ext_net.last - 2⟩ : LSPortM))
    ∧ w.provision_port.2 =
        spec_port w.id w.int_net w.ext_net w.next_lport_index := by
  refine ⟨?_, rfl⟩
  rw [provision_ports_spec n w, h]
  simp only [Nat.zero_add]
  rfl

/-- Witness for C6 at a concrete worker. -/
theorem worker_kth_port_witness :
    ((⟨3, ⟨16, 16, 99, 16⟩, ⟨3, 3, 50, 16⟩, [], 0⟩ :
        WorkerNodeState).provision_ports 2).2 =
      (List.range 2).map (fun (k : Nat) =>
        (⟨"lp-" ++ toString 3 ++ "-" ++ toString k,
          16 + (k : Int) + 1, 16, 99 - 1, 50 - 2⟩ : LSPortM)) :=
  (worker_kth_port ⟨3, ⟨16, 16, 99, 16⟩, ⟨3, 3, 50, 16⟩, [], 0⟩ 2 rfl).1

/-- C7: reverse(i) yields ip4 = n4.last - i when the v4 family is
present; families absent from the subnet are absent (`none`) in the
result of forward(i) and reverse(i); the families present in the
produced DualStackIP mirror exactly those of the subnet. -/
theorem dual_stack_families (s : DualStackSubnet) (i : Int) :
    (∀ n4, s.n4 = some n4 →
      ∀ ip, s.reverse i = .ok ip → ip.ip4 = some (n4.last - i))
    ∧ (s.n4 = none → ∀ ip, s.reverse i = .ok ip →
        ip.ip4 = none ∧ ip.plen4 = none)
    ∧ (s.n4 = none → ∀ ip, s.forward i = .ok ip →
        ip.ip4 = none ∧ ip.plen4 = none)
    ∧ (s.n6 = none → ∀ ip, s.reverse i = .ok ip →
        ip.ip6 = none ∧ ip.plen6 = none)
    ∧ (s.n6 = none → ∀ ip, s.forward i = .ok ip →
        ip.ip6 = none ∧ ip.plen6 = none)
    ∧ (∀ ip, s.forward i = .ok ip →
        (ip.ip4.isSome ↔ s.n4.isSome) ∧ (ip.ip6.isSome ↔ s.n6.isSome))
    ∧ (∀ ip, s.reverse i = .ok ip →
        (ip.ip4.isSome ↔ s.n4.isSome) ∧ (ip.ip6.isSome ↔ s.n6.isSome)) := by
  obtain ⟨n4, n6⟩ := s
  cases n4 <;> cases n6 <;>
    simp [DualStackSubnet.forward, DualStackSubnet.reverse]

/-- Witness for C7 at a concrete dual-stack subnet. -/
theorem dual_stack_families_witness :
    (⟨some 254, some 24, none, none⟩ : DualStackIP).ip4 =
      some ((255 : Int) - 1) :=
  (dual_stack_families ⟨some ⟨0, 0, 255, 24⟩, none⟩ 1).1
    ⟨0, 0, 255, 24⟩ rfl ⟨some 254, some 24, none, none⟩ rfl

/-- C8: add_ports always extends the namespace address set with the
port IPs, and extends the three port groups with the ports exactly when
the namespace is enforcing; when not enforcing the port groups are
unchanged. -/
theorem namespace_add_ports_behavior (ns : NamespaceState)
    (ps : List LSPortM) :
    (ns.add_ports ps).addr_set =
        ns.addr_set ++ ps.map (fun (p : LSPortM) => toString p.ip)
    ∧ (ns.add_ports ps).ports = ns.ports ++ ps
    ∧ (ns.enforcing = true →
        (ns.add_ports ps).pg = ns.pg ++ ps
        ∧ (ns.add_ports ps).pg_def_deny_igr = ns.pg_def_deny_igr ++ ps
        ∧ (ns.add_ports ps).pg_def_deny_egr = ns.pg_def_deny_egr ++ ps)
    ∧ (ns.enforcing = false →
        (ns.add_ports ps).pg = ns.pg
        ∧ (ns.add_ports ps).pg_def_deny_igr = ns.pg_def_deny_igr
        ∧ (ns.add_ports ps).pg_def_deny_egr = ns.pg_def_deny_egr) := by
  cases h : ns.enforcing <;>
    simp [NamespaceState.add_ports, h, port_group_add_ports_eq,
      address_set_add_addrs_eq]

/-- Witness for C8 at a concrete enforcing namespace. -/
theorem namespace_add_ports_behavior_witness :
    ((⟨[], true, [], [], [], []⟩ : NamespaceState).add_ports
        [⟨"p", 1, 24, 2, 3⟩]).pg = [] ++ [⟨"p", 1, 24, 2, 3⟩]
    ∧ ((⟨[], true, [], [], [], []⟩ : NamespaceState).add_ports
        [⟨"p", 1, 24, 2, 3⟩]).pg_def_deny_igr = [] ++ [⟨"p", 1, 24, 2, 3⟩]
    ∧ ((⟨[], true, [], [], [], []⟩ : NamespaceState).add_ports
        [⟨"p", 1, 24, 2, 3⟩]).pg_def_deny_egr = [] ++ [⟨"p", 1, 24, 2, 3⟩] :=
  (namespace_add_ports_behavior ⟨[], true, [], [], [], []⟩
    [⟨"p", 1, 24, 2, 3⟩]).2.2.1 rfl

/-- C9: the relay-container command emitted by
enable_trim_on_compaction is missing the space between the container
name and ovs-appctl: at the concrete relay container ovn-relay-1 the
emitted command differs from the correctly-spaced one the spec
requires. -/
theorem relay_trim_cmd_missing_space :
    relay_trim_cmd "ovn-relay-1" =
      "docker exec ovn-relay-1ovs-appctl -t /run/ovn/ovnsb_db.ctl ovsdb-server/memory-trim-on-compaction on"
    ∧ relay_trim_cmd "ovn-relay-1" ≠ spec_relay_trim_cmd "ovn-relay-1"
    ∧ db_trim_cmd_nb "ovn-central-1" =
      "docker exec ovn-central-1 ovs-appctl -t /run/ovn/ovnnb_db.ctl ovsdb-server/memory-trim-on-compaction on" := by
  refine ⟨rfl, by decide, rfl⟩

theorem uuidTransactionGo_attempts (func : Bool → Nat → Option Nat) :
    ∀ (fuel i : Nat), (uuidTransactionGo func fuel i).2 ≤ fuel := by
  intro fuel
  induction fuel with
  | zero => intro i; simp [uuidTransactionGo]
  | succ n ih =>
    intro i
    cases h : func true i with
    | some u => simp [uuidTransactionGo, h]
    | none =>
      simp only [uuidTransactionGo, h]
      exact Nat.succ_le_succ (ih (i + 1))

theorem uuidTransactionGo_ok (func : Bool → Nat → Option Nat) :
    ∀ (fuel i u : Nat),
      (uuidTransactionGo func fuel i).1 = .ok u →
      ∃ k, k < fuel ∧ func true (i + k) = some u ∧
        ∀ j, j < k → func true (i + j) = none := by
  intro fuel
  induction fuel with
  | zero => intro i u h; simp [uuidTransactionGo] at h
  | succ n ih =>
    intro i u h
    cases hf : func true i with
    | some v =>
      simp [uuidTransactionGo, hf] at h
      refine ⟨0, Nat.succ_pos n, ?_, fun j hj => absurd hj (Nat.not_lt_zero j)⟩
      simpa [h] using hf
    | none =>
      simp [uuidTransactionGo, hf] at h
      obtain ⟨k, hk, hsome, hnone⟩ := ih (i + 1) u h
      refine ⟨k + 1, Nat.succ_lt_succ hk, ?_, ?_⟩
      · have he : i + (k + 1) = i + 1 + k := by omega
        rw [he]; exact hsome
      · intro j hj
        cases j with
        | zero => simpa using hf
        | succ j2 =>
          have he : i + (j2 + 1) = i + 1 + j2 := by omega
          rw [he]; exact hnone j2 (by omega)

theorem uuidTransactionGo_none (func : Bool → Nat → Option Nat) :
    ∀ (fuel i : Nat), (∀ k, k < fuel → func true (i + k) = none) →
      uuidTransactionGo func fuel i = (.error .uuidUnknown, fuel) := by
  intro fuel
  induction fuel with
  | zero => intro i _; rfl
  | succ n ih =>
    intro i h
    have h0 : func true i = none := by simpa using h 0 (Nat.succ_pos n)
    have hrest : ∀ k, k < n → func true (i + 1 + k) = none := by
      intro k hk
      have he : i + 1 + k = i + (k + 1) := by omega
      rw [he]; exact h (k + 1) (by omega)
    simp [uuidTransactionGo, h0, ih (i + 1) hrest]

theorem uuidTransactionGo_congr (f g : Bool → Nat → Option Nat)
    (h : ∀ i, f true i = g true i) :
    ∀ (fuel i : Nat),
      uuidTransactionGo f fuel i = uuidTransactionGo g fuel i := by
  intro fuel
  induction fuel with
  | zero => intro i; rfl
  | succ n ih =>
    intro i
    cases hg : g true i with
    | some u => simp [uuidTransactionGo, h i, hg]
    | none => simp [uuidTransactionGo, h i, hg, ih (i + 1)]

theorem dbCreateTransactionGo_attempts (create lookup : Nat → Option Nat) :
    ∀ (fuel i : Nat), (dbCreateTransactionGo create lookup fuel i).2 ≤ fuel := by
  intro fuel
  induction fuel with
  | zero => intro i; simp [dbCreateTransactionGo]
  | succ n ih =>
    intro i
    cases hc : create i with
    | some u => simp [dbCreateTransactionGo, hc]
    | none =>
      cases hl : lookup i with
      | some u => simp [dbCreateTransactionGo, hc, hl]
      | none =>
        simp only [dbCreateTransactionGo, hc, hl]
        exact Nat.succ_le_succ (ih (i + 1))

theorem dbCreateTransactionGo_ok (create lookup : Nat → Option Nat) :
    ∀ (fuel i u : Nat),
      (dbCreateTransactionGo create lookup fuel i).1 = .ok u →
      ∃ k, k < fuel ∧
        (create (i + k) = some u ∨
          (create (i + k) = none ∧ lookup (i + k) = some u)) ∧
        ∀ j, j < k → create (i + j) = none ∧ lookup (i + j) = none := by
  intro fuel
  induction fuel with
  | zero => intro i u h; simp [dbCreateTransactionGo] at h
  | succ n ih =>
    intro i u h
    cases hc : create i with
    | some v =>
      simp [dbCreateTransactionGo, hc] at h
      refine ⟨0, Nat.succ_pos n, Or.inl ?_,
        fun j hj => absurd hj (Nat.not_lt_zero j)⟩
      simpa [h] using hc
    | none =>
      cases hl : lookup i with
      | some v =>
        simp [dbCreateTransactionGo, hc, hl] at h
        refine ⟨0, Nat.succ_pos n, Or.inr ⟨by simpa using hc, ?_⟩,
          fun j hj => absurd hj (Nat.not_lt_zero j)⟩
        simpa [h] using hl
      | none =>
        simp [dbCreateTransactionGo, hc, hl] at h
        obtain ⟨k, hk, hres, hnone⟩ := ih (i + 1) u h
        refine ⟨k + 1, Nat.succ_lt_succ hk, ?_, ?_⟩
        · have he : i + (k + 1) = i + 1 + k := by omega
          rw [he]; exact hres
        · intro j hj
          cases j with
          | zero => exact ⟨by simpa using hc, by simpa using hl⟩
          | succ j2 =>
            have he : i + (j2 + 1) = i + 1 + j2 := by omega
            rw [he]; exact hnone j2 (by omega)

theorem dbCreateTransactionGo_none (create lookup : Nat → Option Nat) :
    ∀ (fuel i : Nat),
      (∀ k, k < fuel → create (i + k) = none ∧ lookup (i + k) = none) →
      dbCreateTransactionGo create lookup fuel i =
        (.error .uuidUnknown, fuel) := by
  intro fuel
  induction fuel with
  | zero => intro i _; rfl
  | succ n ih =>
    intro i h
    have h0 := h 0 (Nat.succ_pos n)
    have hc : create i = none := by simpa using h0.1
    have hl : lookup i = none := by simpa using h0.2
    have hrest : ∀ k, k < n →
        create (i + 1 + k) = none ∧ lookup (i + 1 + k) = none := by
      intro k hk
      have he : i + 1 + k = i + (k + 1) := by omega
      rw [he]; exact h (k + 1) (by omega)
    simp [dbCreateTransactionGo, hc, hl, ih (i + 1) hrest]

theorem doPostCommitGo_ok (wt : Option WaitType) (next : Nat)
    (states : Nat → NBGlobal) :
    ∀ (fuel i j : Nat), doPostCommitGo wt next states fuel i = .ok j →
      i ≤ j ∧ j < i + fuel ∧
        nb_has_completed wt (states j) next = true := by
  intro fuel
  induction fuel with
  | zero => intro i j h; simp [doPostCommitGo] at h
  | succ n ih =>
    intro i j h
    cases hb : nb_has_completed wt (states i) next with
    | true =>
      simp [doPostCommitGo, hb] at h
      subst h
      exact ⟨le_refl i, by omega, hb⟩
    | false =>
      simp [doPostCommitGo, hb] at h
      obtain ⟨h1, h2, h3⟩ := ih (i + 1) j h
      exact ⟨by omega, by omega, h3⟩

theorem doPostCommitGo_error_iff (wt : Option WaitType) (next : Nat)
    (states : Nat → NBGlobal) :
    ∀ (fuel i : Nat),
      doPostCommitGo wt next states fuel i = .error .timeout ↔
        ∀ j, i ≤ j → j < i + fuel →
          nb_has_completed wt (states j) next = false := by
  intro fuel
  induction fuel with
  | zero =>
    intro i
    constructor
    · intro _ j hj1 hj2; omega
    · intro _; rfl
  | succ n ih =>
    intro i
    cases hb : nb_has_completed wt (states i) next with
    | true =>
      constructor
      · intro h; simp [doPostCommitGo, hb] at h
      · intro h
        have hcontra := h i (le_refl i) (by omega)
        rw [hb] at hcontra
        exact absurd hcontra (by simp)
    | false =>
      constructor
      · intro h
        simp [doPostCommitGo, hb] at h
        intro j hj1 hj2
        rcases Nat.eq_or_lt_of_le hj1 with heq | hlt
        · rw [← heq]; exact hb
        · exact (ih (i + 1)).1 h j hlt (by omega)
      · intro h
        simp only [doPostCommitGo, hb, Bool.false_eq_true, if_false]
        exact (ih (i + 1)).2 (fun j hj1 hj2 => h j (by omega) (by omega))

theorem doPostCommitGo_error_timeout (wt : Option WaitType) (next : Nat)
    (states : Nat → NBGlobal) :
    ∀ (fuel i : Nat) (e : OvnError),
      doPostCommitGo wt next states fuel i = .error e → e = .timeout := by
  intro fuel
  induction fuel with
  | zero =>
    intro i e h
    simp [doPostCommitGo] at h
    exact h.symm
  | succ n ih =>
    intro i e h
    cases hb : nb_has_completed wt (states i) next with
    | true => simp [doPostCommitGo, hb] at h
    | false =>
      simp [doPostCommitGo, hb] at h
      exact ih (i + 1) e h

theorem do_post_commit_ok_inv (w : WaitType) (next : Nat)
    (states : Nat → NBGlobal) (deadline i : Nat)
    (h : do_post_commit (some w) next states deadline = .ok (some i)) :
    doPostCommitGo (some w) next states deadline 0 = .ok i := by
  simp only [do_post_commit] at h
  cases hg : doPostCommitGo (some w) next states deadline 0 with
  | ok j =>
    rw [hg] at h
    simp [Except.map] at h
    rw [h]
  | error e =>
    rw [hg] at h
    simp [Except.map] at h

theorem do_post_commit_error_iff (w : WaitType) (next : Nat)
    (states : Nat → NBGlobal) (deadline : Nat) :
    do_post_commit (some w) next states deadline = .error .timeout ↔
      doPostCommitGo (some w) next states deadline 0 = .error .timeout := by
  simp only [do_post_commit]
  cases hg : doPostCommitGo (some w) next states deadline 0 with
  | ok j => simp [Except.map]
  | error e => simp [Except.map]

theorem do_post_commit_error_timeout (wt : Option WaitType) (next : Nat)
    (states : Nat → NBGlobal) (deadline : Nat) (e : OvnError)
    (h : do_post_commit wt next states deadline = .error e) :
    e = .timeout := by
  cases wt with
  | none => simp [do_post_commit] at h
  | some w =>
    simp only [do_post_commit] at h
    cases hg : doPostCommitGo (some w) next states deadline 0 with
    | ok j =>
      rw [hg] at h
      simp [Except.map] at h
    | error e2 =>
      rw [hg] at h
      simp [Except.map] at h
      exact h ▸ doPostCommitGo_error_timeout (some w) next states
        deadline 0 e2 hg

/-- C1: every create routed through the UUID-retry path makes at most
MAX_RETRY = 5 attempts; attempts are issued idempotently — the outcome
depends only on the behavior of the command with may_exist=True, and
raw row creates consult the get_func natural-key lookup after any
attempt whose result carries no UUID; the first attempt or lookup that
yields a row determines the returned UUID, and when all 5 attempts
(and lookups) fail the call raises UUIDTransactionError
(UUIDUnknown). -/
theorem uuid_retry_discipline (f : Bool → Nat → Option Nat)
    (create lookup : Nat → Option Nat) :
    (uuid_transaction f).2 ≤ MAX_RETRY
    ∧ (db_create_transaction create lookup).2 ≤ MAX_RETRY
    ∧ (∀ g : Bool → Nat → Option Nat, (∀ i, f true i = g true i) →
        uuid_transaction f = uuid_transaction g)
    ∧ (∀ u, (uuid_transaction f).1 = .ok u →
        ∃ k, k < MAX_RETRY ∧ f true k = some u ∧
          ∀ j, j < k → f true j = none)
    ∧ ((∀ k, k < MAX_RETRY → f true k = none) →
        uuid_transaction f = (.error .uuidUnknown, MAX_RETRY))
    ∧ (∀ u, (db_create_transaction create lookup).1 = .ok u →
        ∃ k, k < MAX_RETRY ∧
          (create k = some u ∨ (create k = none ∧ lookup k = some u)) ∧
          ∀ j, j < k → create j = none ∧ lookup j = none)
    ∧ ((∀ k, k < MAX_RETRY → create k = none ∧ lookup k = none) →
        db_create_transaction create lookup =
          (.error .uuidUnknown, MAX_RETRY)) := by
  refine ⟨uuidTransactionGo_attempts f MAX_RETRY 0,
    dbCreateTransactionGo_attempts create lookup MAX_RETRY 0,
    fun g hg => uuidTransactionGo_congr f g hg MAX_RETRY 0,
    fun u hu => ?_, fun hall => ?_, fun u hu => ?_, fun hall => ?_⟩
  · obtain ⟨k, hk, hs, hn⟩ := uuidTransactionGo_ok f MAX_RETRY 0 u hu
    exact ⟨k, hk, by simpa using hs, fun j hj => by simpa using hn j hj⟩
  · exact uuidTransactionGo_none f MAX_RETRY 0
      (fun k hk => by simpa using hall k hk)
  · obtain ⟨k, hk, hs, hn⟩ :=
      dbCreateTransactionGo_ok create lookup MAX_RETRY 0 u hu
    exact ⟨k, hk, by simpa using hs, fun j hj => by simpa using hn j hj⟩
  · exact dbCreateTransactionGo_none create lookup MAX_RETRY 0
      (fun k hk => by simpa using hall k hk)

/-- Witness for C1: all five attempts failing yields the UUIDUnknown
error after exactly MAX_RETRY attempts, for both retry paths. -/
theorem uuid_retry_discipline_witness :
    uuid_transaction (fun _ _ => none) = (.error .uuidUnknown, MAX_RETRY)
    ∧ db_create_transaction (fun _ => none) (fun _ => none) =
        (.error .uuidUnknown, MAX_RETRY) :=
  ⟨(uuid_retry_discipline (fun _ _ => none) (fun _ => none)
      (fun _ => none)).2.2.2.2.1 (fun _ _ => rfl),
   (uuid_retry_discipline (fun _ _ => none) (fun _ => none)
      (fun _ => none)).2.2.2.2.2.2 (fun _ _ => ⟨rfl, rfl⟩)⟩

/-- C2: the sync barrier increments nb_cfg in pre-commit; the
post-commit poll returns successfully only at a poll where
NB_Global.sb_cfg has reached the incremented value (wait type sb),
resp. min(sb_cfg, hv_cfg) has (wait type hv), within the transaction
deadline; it times out exactly when no poll within the deadline
satisfies the condition. -/
theorem sync_barrier_semantics (c next deadline i : Nat)
    (states : Nat → NBGlobal) :
    pre_commit (some .sb) c = c + 1
    ∧ pre_commit (some .hv) c = c + 1
    ∧ (do_post_commit (some .sb) next states deadline = .ok (some i) →
        i < deadline ∧ next ≤ (states i).sb_cfg)
    ∧ (do_post_commit (some .hv) next states deadline = .ok (some i) →
        i < deadline ∧ next ≤ min (states i).sb_cfg (states i).hv_cfg)
    ∧ (do_post_commit (some .sb) next states deadline = .error .timeout ↔
        ∀ j, j < deadline → ¬ next ≤ (states j).sb_cfg)
    ∧ (do_post_commit (some .hv) next states deadline = .error .timeout ↔
        ∀ j, j < deadline →
          ¬ next ≤ min (states j).sb_cfg (states j).hv_cfg) := by
  refine ⟨rfl, rfl, fun h => ?_, fun h => ?_, ?_, ?_⟩
  · obtain ⟨h1, h2, h3⟩ := doPostCommitGo_ok (some .sb) next states
      deadline 0 i (do_post_commit_ok_inv .sb next states deadline i h)
    exact ⟨by omega, by simpa [nb_has_completed] using h3⟩
  · obtain ⟨h1, h2, h3⟩ := doPostCommitGo_ok (some .hv) next states
      deadline 0 i (do_post_commit_ok_inv .hv next states deadline i h)
    exact ⟨by omega, by simpa [nb_has_completed] using h3⟩
  · rw [do_post_commit_error_iff, doPostCommitGo_error_iff]
    constructor
    · intro h j hj
      simpa [nb_has_completed] using h j (by omega) (by omega)
    · intro h j hj1 hj2
      simpa [nb_has_completed] using h j (by omega)
  · rw [do_post_commit_error_iff, doPostCommitGo_error_iff]
    constructor
    · intro h j hj
      simpa [nb_has_completed] using h j (by omega) (by omega)
    · intro h j hj1 hj2
      simpa [nb_has_completed] using h j (by omega)

/-- Witness for C2 at a concrete trace where the barrier completes at
the first poll, within the deadline. -/
theorem sync_barrier_semantics_witness :
    (0 : Nat) < 1 ∧ (3 : Nat) ≤ (NBGlobal.mk 5 5).sb_cfg :=
  (sync_barrier_semantics 0 3 1 0 (fun _ => ⟨5, 5⟩)).2.2.1 rfl

/-- C3 (amended): when the barrier poll exceeds the transaction
deadline, do_post_commit raises the TimeoutException, but post_commit
catches it and only logs it: no error is surfaced to the sync caller,
and the NB write of the transaction remains committed. -/
theorem post_commit_swallows_timeout (wt : Option WaitType)
    (next deadline : Nat) (states : Nat → NBGlobal) :
    (post_commit wt next states deadline).raised = none
    ∧ (post_commit wt next states deadline).committed = true
    ∧ ((post_commit wt next states deadline).logged_timeout = true ↔
        do_post_commit wt next states deadline = .error .timeout) := by
  unfold post_commit
  cases h : do_post_commit wt next states deadline with
  | ok v => simp [h]
  | error e =>
    have he := do_post_commit_error_timeout wt next states deadline e h
    subst he
    simp [h]

/-- Witness for C3 amended at a concrete stuck trace. -/
theorem post_commit_swallows_timeout_witness :
    (post_commit (some .hv) 1 (fun _ => ⟨1, 0⟩) 2).raised = none :=
  (post_commit_swallows_timeout (some .hv) 1 2 (fun _ => ⟨1, 0⟩)).1

/-- C3 counterexample: with wait type hv and hv_cfg stuck below the
incremented nb_cfg for the whole deadline, the barrier poll times out,
yet sync surfaces no error to its caller (post_commit catches and logs
the timeout); the NB write remains committed. -/
theorem sync_timeout_not_surfaced :
    do_post_commit (some .hv) 1 (fun _ => ⟨1, 0⟩) 2 = .error .timeout
    ∧ (sync_outcome "hv" 0 (fun _ => ⟨1, 0⟩) 2).raised = none
    ∧ (sync_outcome "hv" 0 (fun _ => ⟨1, 0⟩) 2).committed = true :=
  ⟨rfl, by decide, by decide⟩

/-- C4 counterexample: with clustered_db = true and n_relays = 0 the
default node remote resolves to endpoints at the first three hosts of
node_net — addresses ip+1, ip+2, ip+3 — not to three endpoints starting
at node_net.ip + 5 as the claim states. -/
theorem default_node_remotes_not_plus5 :
    (calculate_default_node_remotes 0 true 0 true).map Remote.addr ≠
      [0 + 5, 0 + 6, 0 + 7]
    ∧ (calculate_default_node_remotes 0 true 0 true).map Remote.addr =
      [1, 2, 3] := ⟨by decide, by decide⟩

/-- C4 (amended): when node_remote is not supplied, the default is a
comma-joined list of endpoints of the form proto:addr:6642 with proto
ssl or tcp per enable_ssl; with n_relays = 0 it consists of the first 3
(clustered) or 1 (single) hosts of node_net, i.e. addresses starting at
node_net.ip + 1; with n_relays > 0 it consists of n_relays endpoints
offset past the first 3 (clustered) or 1 (single) hosts. -/
theorem default_node_remotes_layout (net_ip : Int)
    (clustered enable_ssl : Bool) (n_relays : Nat) :
    (n_relays = 0 →
      (calculate_default_node_remotes net_ip clustered n_relays
          enable_ssl).map Remote.addr =
        (if clustered then [net_ip + 1, net_ip + 2, net_ip + 3]
         else [net_ip + 1]))
    ∧ (∀ k : Nat, 0 < n_relays → k < n_relays →
      ((calculate_default_node_remotes net_ip clustered n_relays
          enable_ssl).map Remote.addr)[k]? =
        some (net_ip + (if clustered then 4 else 2) + k))
    ∧ (∀ r ∈ calculate_default_node_remotes net_ip clustered n_relays
          enable_ssl,
        r.port = 6642 ∧ r.proto = (if enable_ssl then "ssl" else "tcp")) := by
  refine ⟨?_, ?_, ?_⟩
  · intro h
    subst h
    cases clustered <;>
      · simp [calculate_default_node_remotes, iter_host, List.range_succ]
        try omega
  · intro k h hk
    cases clustered <;>
      · simp [calculate_default_node_remotes, iter_host, h, hk,
          List.getElem?_map, List.getElem?_range]
        omega
  · intro r hr
    simp [calculate_default_node_remotes] at hr
    obtain ⟨k, hk, rfl⟩ := hr
    exact ⟨rfl, rfl⟩

/-- Witness for C4 amended at a concrete clustered configuration with
no relays. -/
theorem default_node_remotes_layout_witness :
    (calculate_default_node_remotes 10 true 0 true).map Remote.addr =
      (if (true : Bool) then [(10 : Int) + 1, 10 + 2, 10 + 3]
       else [10 + 1]) :=
  (default_node_remotes_layout 10 true true 0).1 rfl

/-- C10 (amended): for every non-empty wait_type whose lowercase form
is neither sb nor hv, the NB transaction logs a warning and treats it
as no wait: nb_cfg is not incremented, the post-commit barrier does not
poll and returns no error, so sync silently performs no
synchronization; the empty string is likewise treated as no wait but
without a warning (Python truthiness sends it down the None branch). -/
theorem unrecognized_wait_type_no_sync (s : String)
    (c next deadline : Nat) (states : Nat → NBGlobal)
    (h1 : pyLower s ≠ "sb") (h2 : pyLower s ≠ "hv") :
    (nbtransaction_init (some s)).wait_type = none
    ∧ ((nbtransaction_init (some s)).warned = true ↔ s ≠ "")
    ∧ pre_commit (nbtransaction_init (some s)).wait_type c = c
    ∧ do_post_commit (nbtransaction_init (some s)).wait_type next states
        deadline = .ok none
    ∧ (sync_outcome s c states deadline).raised = none := by
  have hw : nbtransaction_init (some s) = ⟨none, decide (s ≠ "")⟩ := by
    by_cases hs : s = ""
    · subst hs; rfl
    · simp [nbtransaction_init, hs, h1, h2]
  refine ⟨by rw [hw], ?_, by rw [hw]; rfl, ?_, ?_⟩
  · rw [hw]
    by_cases hs : s = "" <;> simp [hs]
  · rw [hw]
    rfl
  · unfold sync_outcome
    rw [hw]
    rfl

/-- Witness for C10 amended at the unrecognized wait type foo. -/
theorem unrecognized_wait_type_no_sync_witness :
    (nbtransaction_init (some "foo")).wait_type = none
    ∧ ((nbtransaction_init (some "foo")).warned = true ↔ "foo" ≠ "")
    ∧ pre_commit (nbtransaction_init (some "foo")).wait_type 7 = 7
    ∧ do_post_commit (nbtransaction_init (some "foo")).wait_type 1
        (fun _ => ⟨0, 0⟩) 3 = .ok none
    ∧ (sync_outcome "foo" 7 (fun _ => ⟨0, 0⟩) 3).raised = none :=
  unrecognized_wait_type_no_sync "foo" 7 1 3 (fun _ => ⟨0, 0⟩)
    (by decide) (by decide)

/-- C10 counterexample: the empty string is a wait_type value other
than sb and hv after lowercasing (pyLower), yet constructing the NB transaction
logs no warning for it, contradicting the claim that only a warning is
logged for every unrecognized wait type. -/
theorem empty_wait_type_no_warning :
    pyLower "" ≠ "sb" ∧ pyLower "" ≠ "hv"
    ∧ (nbtransaction_init (some "")).warned = false :=
  ⟨by decide, by decide, rfl⟩

end OvnHeater
